import Mathlib

/-!
Verification of the suredis command-shaping layer (src/lib.rs and the
duplicated modules under src/ops/).  The definitions below are a shallow
embedding of the Rust source: Python values reaching the binding are an
inductive type, the pyo3 stringification is modelled by recursion, and the
fallible paths return Except values.
-/

namespace Suredis

mutual

/-- Python values as they reach the pyo3 binding (the PyAny arguments of the
    facades).  Lists model Python sequences, which the source never
    special-cases: every argument goes through PyAny::to_string. -/
inductive PyValue where
  | pyBool (b : Bool)
  | pyInt (n : Int)
  | pyStr (s : String)
  | pyList (xs : PyValueList)

/-- The element sequence of a Python list value. -/
inductive PyValueList where
  | nil
  | cons (head : PyValue) (tail : PyValueList)

end

mutual

/-- Python repr() of a value: strings gain single quotes, booleans render as
    True and False, a list renders as the bracketed comma-joined repr of its
    elements. -/
def PyValue.reprv : PyValue → String
  | .pyBool b => if b then "True" else "False"
  | .pyInt n => toString n
  | .pyStr s => "\x27" ++ s ++ "\x27"
  | .pyList xs => "[" ++ PyValueList.inner xs ++ "]"

/-- Comma-joined reprs of the elements of a Python list. -/
def PyValueList.inner : PyValueList → String
  | .nil => ""
  | .cons x .nil => PyValue.reprv x
  | .cons x (.cons y ys) => PyValue.reprv x ++ ", " ++ PyValueList.inner (.cons y ys)

end

/-- Python str() of a value, which is what PyAny::to_string produces for the
    binding.  It differs from repr() only on strings, which render without
    quotes. -/
def PyValue.str : PyValue → String
  | .pyStr s => s
  | v => PyValue.reprv v

/-- Emptiness test for a Python list value. -/
def PyValueList.isEmpty : PyValueList → Bool
  | .nil => true
  | .cons _ _ => false

/-- Python truthiness of a value, as bool() computes it.  This is the notion
    the spec sentence about no_overwrite appeals to; the source never
    consults it. -/
def PyValue.truthy : PyValue → Bool
  | .pyBool b => b
  | .pyInt n => n != 0
  | .pyStr s => s != ""
  | .pyList xs => !xs.isEmpty

/-- A Python keyword-argument dictionary in its iteration order, as the
    facades receive Option of PyDict.  Item lookup is association-list
    lookup on the key. -/
abbrev PyDict := List (String × PyValue)

/-- Rust str::parse for bool: exactly the literals true and false succeed. -/
def rust_parse_bool (s : String) : Option Bool :=
  if s = "true" then some true
  else if s = "false" then some false
  else none

/-- Rust str::to_ascii_lowercase, stated on the character list; Char.toLower
    lowercases exactly the ASCII uppercase range, matching the Rust
    ASCII-only behaviour. -/
def to_ascii_lowercase (s : String) : String :=
  String.mk (s.data.map Char.toLower)

/-- Rust str::starts_with on string patterns, stated on character lists.  For
    valid UTF-8 a byte-level prefix by a complete string coincides with a
    character-level prefix, so this is the byte test of the source. -/
def rust_starts_with (s pre : String) : Bool :=
  pre.data.isPrefixOf s.data

/-- Embedding of nx_x_decider from src/lib.rs lines 64-80.  The user choice
    dictionary is looked up at the key no_overwrite; a present value is
    stringified, ASCII-lowercased, and parsed as a Rust bool, and only a
    successful parse to true appends the additive to the base verb. -/
def nx_x_decider (base additive : String) (choice : Option PyDict) : String :=
  let raw_choice := (choice.getD []).lookup "no_overwrite"
  let res := base
  match raw_choice with
  | some val =>
    match rust_parse_bool (to_ascii_lowercase (PyValue.str val)) with
    | some b => if b then res ++ additive else res
    | none => res
  | none => res

/-- The error kinds of the redis crate as consumed by route_command's match
    (the catch-all arm makes the exact tail of the enumeration immaterial). -/
inductive ErrorKind where
  | responseError
  | authenticationFailed
  | typeError
  | execAbortError
  | busyLoadingError
  | noScriptError
  | invalidClientConfig
  | moved
  | ask
  | tryAgain
  | clusterDown
  | crossSlot
  | masterDown
  | ioError
  | clientError
  | extensionError
deriving DecidableEq

/-- An error value of the redis crate: a kind plus an optional detail text. -/
structure RedisError where
  kind : ErrorKind
  detail : Option String
deriving DecidableEq

/-- The Python exceptions the binding raises, tagged with their message. -/
inductive PyErr where
  | typeError (msg : String)
  | ioError (msg : String)
  | exception (msg : String)
deriving DecidableEq

/-- The error arm of route_command (src/lib.rs lines 33-41): the detail text
    defaults to the fixed message, extension and type errors raise TypeError,
    IO errors raise IOError, everything else the generic Exception. -/
def classify_error (e : RedisError) : PyErr :=
  let detail := e.detail.getD "Unknown exception!"
  match e.kind with
  | .extensionError => .typeError detail
  | .typeError => .typeError detail
  | .ioError => .ioError detail
  | _ => .exception detail

/-- A server oracle standing for the live connection together with the redis
    crate's query and FromRedisValue conversion: for a command name and its
    argument frames it yields the typed result or a redis error. -/
abbrev Server (α : Type) := String → List String → Except RedisError α

/-- Embedding of route_command from src/lib.rs lines 19-44: issue the command
    and either return the typed value or raise the classified exception. -/
def route_command {α : Type} (server : Server α) (cmd : String) (args : List String) :
    Except PyErr α :=
  match server cmd args with
  | .ok v => .ok v
  | .error e => .error (classify_error e)

/-- Embedding of construct_vector from src/lib.rs lines 47-53: every element
    is stringified via PyAny::to_string and collected; the capacity argument
    only presizes the vector.  No input is ever rejected. -/
def construct_vector (capacity : Nat) (other : List PyValue) : Except PyErr (List String) :=
  let _ := capacity
  Except.ok (other.map PyValue.str)

/-- Rust unwrap_or_default on the PyResult of route_command, with the Default
    value of the Rust type taken as the Inhabited default. -/
def unwrap_or_default {α : Type} [Inhabited α] (x : Except PyErr α) : α :=
  match x with
  | .ok v => v
  | .error _ => default

/-- URL normalization done inline in RedisClient::__new__ (src/lib.rs lines
    2127-2131): prefix redis:// when it is absent, keep the string otherwise. -/
def normalize_url (url : String) : String :=
  if rust_starts_with url "redis://" then url else "redis://" ++ url

/-- The fields of the constructed RedisClient that the claims mention. -/
structure RedisClientState where
  db : Int
  url : String
  supports_pipelining : Bool
deriving DecidableEq

/-- Outcome of RedisClient::__new__: a constructed client, a returned Python
    error (the PyResult error case of the signature), or a Rust panic as
    produced by expect. -/
inductive ConstructOutcome where
  | ok (client : RedisClientState)
  | err (e : PyErr)
  | panicked (msg : String)
deriving DecidableEq

namespace RedisClient

/-- Embedding of RedisClient::__new__ (src/lib.rs lines 2126-2152).  The
    external Client::open is a parameter returning none exactly when the URL
    is unparseable or has an unsupported scheme, and get_connection is a
    parameter carrying the connection's db on success.  Both failures go
    through expect, hence panic. -/
def new (open_ : String → Option Unit) (get_connection : Option Int) (url : String) :
    ConstructOutcome :=
  let protected_url := normalize_url url
  match open_ protected_url with
  | none => .panicked "could not establish a Redis client"
  | some _ =>
    match get_connection with
    | none => .panicked "could not establish a connection. Is the server running?"
    | some db => .ok { db := db, url := url, supports_pipelining := true }

/-- Embedding of RedisClient::manual (src/lib.rs lines 131-134). -/
def manual (server : Server String) (cmd : String) (args : List PyValue) :
    Except PyErr String := do
  let args ← construct_vector args.length args
  route_command server cmd args

/-- Embedding of RedisClient::delete (src/lib.rs lines 166-169): the error of
    route_command is propagated by the question-mark operator. -/
def delete (server : Server Nat) (keys : List PyValue) : Except PyErr Nat := do
  let args ← construct_vector keys.length keys
  route_command server "DEL" args

/-- Embedding of RedisClient::exists (src/lib.rs lines 197-200): the error of
    route_command is propagated by the question-mark operator. -/
def exists_ (server : Server Nat) (keys : List PyValue) : Except PyErr Nat := do
  let args ← construct_vector keys.length keys
  route_command server "EXISTS" args

/-- Embedding of RedisClient::expire (src/lib.rs lines 235-238): the error of
    route_command is propagated by the question-mark operator. -/
def expire (server : Server Nat) (key : String) (seconds : Nat) : Except PyErr Nat := do
  let time := toString seconds
  route_command server "EXPIRE" [key, time]

/-- Embedding of RedisClient::get (src/lib.rs lines 736-738): any error from
    route_command is replaced by the default empty string. -/
def get (server : Server String) (key : String) : Except PyErr String :=
  .ok (unwrap_or_default (route_command server "GET" [key]))

/-- Embedding of RedisClient::randomkey (src/lib.rs lines 501-502): no
    arguments are sent and any error is replaced by the default empty
    string. -/
def randomkey (server : Server String) : Except PyErr String :=
  .ok (unwrap_or_default (route_command server "RANDOMKEY" []))

/-- Embedding of RedisClient::rename (src/lib.rs lines 538-541): the verb goes
    through nx_x_decider and any error is replaced by the default empty
    string. -/
def rename (server : Server String) (key newkey : String) (no_overwrite : Option PyDict) :
    Except PyErr String :=
  let command := nx_x_decider "RENAME" "NX" no_overwrite
  .ok (unwrap_or_default (route_command server command [key, newkey]))

/-- Embedding of RedisClient::sset (src/lib.rs lines 764-770). -/
def sset (server : Server String) (key : String) (value : PyValue)
    (no_overwrite : Option PyDict) : Except PyErr String := do
  let val := PyValue.str value
  let command := nx_x_decider "SET" "NX" no_overwrite
  route_command server command [key, val]

/-- Embedding of RedisClient::mset (src/lib.rs lines 1070-1081).  The keys
    mapping is taken in the iteration order of the HashMap the binding built,
    and each pair pushes its key then its value. -/
def mset (server : Server String) (keys : List (String × PyValue))
    (no_overwrite : Option PyDict) : Except PyErr String := do
  let command := nx_x_decider "MSET" "NX" no_overwrite
  let arguments := keys.foldl (fun acc kv => acc ++ [kv.1, PyValue.str kv.2]) []
  route_command server command arguments

/-- Embedding of RedisClient::hset (src/lib.rs lines 1488-1500): the key is
    pushed first, then each field pushes its name and its value in the
    mapping's iteration order. -/
def hset (server : Server Nat) (key : String) (fields : List (String × PyValue))
    (no_overwrite : Option PyDict) : Except PyErr Nat := do
  let command := nx_x_decider "HSET" "NX" no_overwrite
  let args := fields.foldl (fun acc kv => acc ++ [kv.1, PyValue.str kv.2]) [key]
  route_command server command args

/-- Embedding of RedisClient::hdel (src/lib.rs lines 1239-1244): the fields
    are flattened, then the key is inserted at index zero. -/
def hdel (server : Server Nat) (key : String) (fields : List PyValue) :
    Except PyErr Nat := do
  let arguments ← construct_vector (fields.length + 1) fields
  let arguments := key :: arguments
  route_command server "HDEL" arguments

/-- Embedding of RedisClient::hmget (src/lib.rs lines 1453-1458). -/
def hmget (server : Server (List String)) (key : String) (fields : List PyValue) :
    Except PyErr (List String) := do
  let arguments ← construct_vector (fields.length + 1) fields
  let arguments := key :: arguments
  route_command server "HMGET" arguments

/-- Embedding of RedisClient::rpush (src/lib.rs lines 1580-1585). -/
def rpush (server : Server Nat) (key : String) (elements : List PyValue)
    (no_overwrite : Option PyDict) : Except PyErr Nat := do
  let command := nx_x_decider "RPUSH" "X" no_overwrite
  let args ← construct_vector (elements.length + 1) elements
  let args := key :: args
  route_command server command args

/-- Embedding of RedisClient::lpush (src/lib.rs lines 1617-1622). -/
def lpush (server : Server Nat) (key : String) (elements : List PyValue)
    (no_overwrite : Option PyDict) : Except PyErr Nat := do
  let command := nx_x_decider "LPUSH" "X" no_overwrite
  let args ← construct_vector (elements.length + 1) elements
  let args := key :: args
  route_command server command args

/-- Embedding of RedisClient::lrem (src/lib.rs lines 1785-1791): the elements
    are flattened, then the amount and at last the key are inserted at index
    zero. -/
def lrem (server : Server Nat) (key : String) (amt : Nat) (elems : List PyValue) :
    Except PyErr Nat := do
  let arguments ← construct_vector (elems.length + 2) elems
  let arguments := toString amt :: arguments
  let arguments := key :: arguments
  route_command server "LREM" arguments

/-- Embedding of RedisClient::sadd (src/lib.rs lines 1896-1901). -/
def sadd (server : Server Nat) (key : String) (members : List PyValue) :
    Except PyErr Nat := do
  let mems ← construct_vector (members.length + 1) members
  let mems := key :: mems
  route_command server "SADD" mems

end RedisClient

/-- Convenience predicate: an Except value is a success. -/
def exceptIsOk {ε α : Type} : Except ε α → Bool
  | .ok _ => true
  | .error _ => false

/-- A server oracle that fails every command with the given error. -/
def failServer {α : Type} (e : RedisError) : Server α := fun _ _ => .error e

/-- A character list is a prefix of itself followed by anything. -/
lemma isPrefixOf_append_self (l r : List Char) : l.isPrefixOf (l ++ r) = true := by
  induction l with
  | nil => simp [List.isPrefixOf]
  | cons c cs ih => simp [List.isPrefixOf, ih]

/-- Prefixing a string makes that string a leading segment of the result. -/
lemma rust_starts_with_append (pre u : String) : rust_starts_with (pre ++ u) pre = true := by
  simp [rust_starts_with, String.data_append, isPrefixOf_append_self]

/-- C8: URL normalization is idempotent and always yields a string that starts
    with the redis scheme marker. -/
theorem C8_normalize_idempotent (u : String) :
    normalize_url (normalize_url u) = normalize_url u ∧
    rust_starts_with (normalize_url u) "redis://" = true := by
  by_cases h : rust_starts_with u "redis://" = true
  · refine ⟨?_, ?_⟩ <;> simp [normalize_url, h]
  · have h2 := rust_starts_with_append "redis://" u
    refine ⟨?_, ?_⟩ <;> simp [normalize_url, h, h2]

/-- C9: the error arm of route_command maps every redis error kind to exactly
    one raised Python exception: extension and type errors to TypeError, IO
    errors to IOError, and all remaining kinds to the generic Exception;
    a failing dispatch surfaces precisely the classified error. -/
theorem C9_classifier_total_deterministic (k : ErrorKind) (d : Option String)
    (cmd : String) (args : List String) :
    (classify_error ⟨k, d⟩ = PyErr.typeError (d.getD "Unknown exception!") ↔
      (k = ErrorKind.extensionError ∨ k = ErrorKind.typeError)) ∧
    (classify_error ⟨k, d⟩ = PyErr.ioError (d.getD "Unknown exception!") ↔
      k = ErrorKind.ioError) ∧
    (classify_error ⟨k, d⟩ = PyErr.exception (d.getD "Unknown exception!") ↔
      (k ≠ ErrorKind.extensionError ∧ k ≠ ErrorKind.typeError ∧ k ≠ ErrorKind.ioError)) ∧
    route_command (failServer ⟨k, d⟩ : Server Nat) cmd args =
      Except.error (classify_error ⟨k, d⟩) := by
  refine ⟨?_, ?_, ?_, rfl⟩ <;> cases k <;> simp [classify_error]

/-- C10: every successfully constructed client carries supports_pipelining
    equal to true, independently of the URL and of the external open and
    connection outcomes. -/
theorem C10_supports_pipelining_constant (open_ : String → Option Unit)
    (conn : Option Int) (url : String) (c : RedisClientState)
    (h : RedisClient.new open_ conn url = ConstructOutcome.ok c) :
    c.supports_pipelining = true := by
  simp only [RedisClient.new] at h
  cases ho : open_ (normalize_url url) with
  | none => rw [ho] at h; cases h
  | some u =>
    rw [ho] at h
    cases conn with
    | none => cases h
    | some db =>
      simp only [ConstructOutcome.ok.injEq] at h
      rw [← h]

/-- Witness for C10 at a concrete construction. -/
theorem C10_supports_pipelining_constant_witness :
    ({ db := 0, url := "u", supports_pipelining := true } : RedisClientState).supports_pipelining
      = true :=
  C10_supports_pipelining_constant (fun _ => some ()) (some 0) "u" _ rfl

/-- C5: every variadic list-, hash- and set-family facade dispatches the key
    at index zero followed by the stringified user elements in their original
    order (lrem interposes only the amount after the key). -/
theorem C5_key_at_zero_order_preserved (sN : Server Nat) (sL : Server (List String))
    (key : String) (elements : List PyValue) (no_overwrite : Option PyDict) (amt : Nat) :
    RedisClient.rpush sN key elements no_overwrite =
      route_command sN (nx_x_decider "RPUSH" "X" no_overwrite)
        (key :: elements.map PyValue.str) ∧
    RedisClient.lpush sN key elements no_overwrite =
      route_command sN (nx_x_decider "LPUSH" "X" no_overwrite)
        (key :: elements.map PyValue.str) ∧
    RedisClient.hdel sN key elements =
      route_command sN "HDEL" (key :: elements.map PyValue.str) ∧
    RedisClient.hmget sL key elements =
      route_command sL "HMGET" (key :: elements.map PyValue.str) ∧
    RedisClient.sadd sN key elements =
      route_command sN "SADD" (key :: elements.map PyValue.str) ∧
    RedisClient.lrem sN key amt elements =
      route_command sN "LREM" (key :: toString amt :: elements.map PyValue.str) ∧
    (key :: elements.map PyValue.str).head? = some key ∧
    ∀ i, (key :: elements.map PyValue.str)[i + 1]? = (elements[i]?).map PyValue.str := by
  refine ⟨rfl, rfl, rfl, rfl, rfl, rfl, rfl, ?_⟩
  intro i
  simp

/-- Flattening of a mapping in its iteration order: each key immediately
    followed by its own value. -/
def flatten_pairs : List (String × PyValue) → List String
  | [] => []
  | (k, v) :: rest => k :: PyValue.str v :: flatten_pairs rest

/-- The push loop of mset and hset accumulates exactly the in-order
    flattening of the pairs after the initial contents. -/
lemma foldl_flatten_pairs (pairs : List (String × PyValue)) (init : List String) :
    pairs.foldl (fun acc kv => acc ++ [kv.1, PyValue.str kv.2]) init =
      init ++ flatten_pairs pairs := by
  induction pairs generalizing init with
  | nil => simp [flatten_pairs]
  | cons kv rest ih => simp [flatten_pairs, ih]

/-- C6: mset and hset flatten their mapping to key, value, key, value, … in
    the mapping's iteration order; hset additionally leads with the hash
    key. -/
theorem C6_mapping_flattened_in_order (sS : Server String) (sN : Server Nat)
    (pairs : List (String × PyValue)) (key : String) (no_overwrite : Option PyDict) :
    RedisClient.mset sS pairs no_overwrite =
      route_command sS (nx_x_decider "MSET" "NX" no_overwrite) (flatten_pairs pairs) ∧
    RedisClient.hset sN key pairs no_overwrite =
      route_command sN (nx_x_decider "HSET" "NX" no_overwrite)
        (key :: flatten_pairs pairs) := by
  constructor
  · show route_command sS (nx_x_decider "MSET" "NX" no_overwrite)
      (pairs.foldl (fun acc kv => acc ++ [kv.1, PyValue.str kv.2]) []) = _
    rw [foldl_flatten_pairs]
    simp
  · show route_command sN (nx_x_decider "HSET" "NX" no_overwrite)
      (pairs.foldl (fun acc kv => acc ++ [kv.1, PyValue.str kv.2]) [key]) = _
    rw [foldl_flatten_pairs]
    simp

/-- On a singleton option dictionary carrying no_overwrite, the decider
    appends the additive exactly when the ASCII-lowercased str() of the value
    is the literal true. -/
lemma nx_x_decider_single (base additive : String) (v : PyValue) :
    nx_x_decider base additive (some [("no_overwrite", v)]) =
      if to_ascii_lowercase (PyValue.str v) = "true" then base ++ additive else base := by
  unfold nx_x_decider
  simp only [Option.getD_some, List.lookup, beq_self_eq_true]
  by_cases ht : to_ascii_lowercase (PyValue.str v) = "true"
  · simp [rust_parse_bool, ht]
  · by_cases hf : to_ascii_lowercase (PyValue.str v) = "false"
    · simp [rust_parse_bool, ht, hf]
    · simp [rust_parse_bool, ht, hf]

/-- C1 counterexample: the Python string true, a truthy value distinct from
    the boolean True, also yields the suffixed verb, so inputs other than the
    boolean true do not all yield the base verb. -/
theorem C1_counterexample :
    nx_x_decider "SET" "NX" (some [("no_overwrite", PyValue.pyStr "true")]) = "SETNX" ∧
    nx_x_decider "SET" "NX" (some [("no_overwrite", PyValue.pyStr "true")]) ≠ "SET" ∧
    PyValue.pyStr "true" ≠ PyValue.pyBool true := by
  refine ⟨by decide, by decide, fun h => PyValue.noConfusion h⟩

/-- C1 amended: no_overwrite set to the boolean True yields exactly the
    table-driven suffixed verbs, and in general a present value yields the
    suffix precisely when its str() form, ASCII-lowercased, is the literal
    true; an absent option or absent key yields the base verb. -/
theorem C1_amended_nx_table :
    nx_x_decider "SET" "NX" (some [("no_overwrite", PyValue.pyBool true)]) = "SETNX" ∧
    nx_x_decider "MSET" "NX" (some [("no_overwrite", PyValue.pyBool true)]) = "MSETNX" ∧
    nx_x_decider "HSET" "NX" (some [("no_overwrite", PyValue.pyBool true)]) = "HSETNX" ∧
    nx_x_decider "RENAME" "NX" (some [("no_overwrite", PyValue.pyBool true)]) = "RENAMENX" ∧
    nx_x_decider "LPUSH" "X" (some [("no_overwrite", PyValue.pyBool true)]) = "LPUSHX" ∧
    nx_x_decider "RPUSH" "X" (some [("no_overwrite", PyValue.pyBool true)]) = "RPUSHX" ∧
    (∀ base additive v,
      nx_x_decider base additive (some [("no_overwrite", v)]) =
        if to_ascii_lowercase (PyValue.str v) = "true" then base ++ additive else base) ∧
    (∀ base additive, nx_x_decider base additive (some []) = base) ∧
    (∀ base additive, nx_x_decider base additive none = base) := by
  refine ⟨by decide, by decide, by decide, by decide, by decide, by decide,
    nx_x_decider_single, fun _ _ => rfl, fun _ _ => rfl⟩

/-- C3 counterexample: the integer one is present and truthy, yet the decider
    keeps the base verb, so truthiness of the option value does not decide
    the variant. -/
theorem C3_counterexample :
    PyValue.truthy (PyValue.pyInt 1) = true ∧
    nx_x_decider "SET" "NX" (some [("no_overwrite", PyValue.pyInt 1)]) = "SET" :=
  ⟨by decide, by decide⟩

/-- C3 amended: the variant is decided by parsing the ASCII-lowercased str()
    of the value as a Rust boolean, not by truthiness; falsy values and an
    absent option do yield the base verb, but truthy values yield the suffix
    only when they stringify to the literal true. -/
theorem C3_amended_parse_decides :
    (∀ base additive v,
      nx_x_decider base additive (some [("no_overwrite", v)]) =
        if rust_parse_bool (to_ascii_lowercase (PyValue.str v)) = some true
        then base ++ additive else base) ∧
    (∀ base additive v, PyValue.truthy v = false →
      nx_x_decider base additive (some [("no_overwrite", v)]) = base) ∧
    (∀ base additive, nx_x_decider base additive none = base) := by
  have hiff : ∀ v : PyValue,
      (rust_parse_bool (to_ascii_lowercase (PyValue.str v)) = some true) ↔
        (to_ascii_lowercase (PyValue.str v) = "true") := by
    intro v
    by_cases ht : to_ascii_lowercase (PyValue.str v) = "true"
    · simp [rust_parse_bool, ht]
    · by_cases hf : to_ascii_lowercase (PyValue.str v) = "false"
      · simp [rust_parse_bool, ht, hf]
      · simp [rust_parse_bool, ht, hf]
  refine ⟨?_, ?_, fun _ _ => rfl⟩
  · intro base additive v
    rw [nx_x_decider_single]
    by_cases ht : to_ascii_lowercase (PyValue.str v) = "true"
    · rw [if_pos ht, if_pos ((hiff v).mpr ht)]
    · rw [if_neg ht, if_neg (fun hp => ht ((hiff v).mp hp))]
  · intro base additive v h
    rw [nx_x_decider_single]
    cases v with
    | pyBool b =>
      have hb : b = false := by simpa [PyValue.truthy] using h
      subst hb
      rw [if_neg (by decide)]
    | pyInt n =>
      have hn : n = 0 := by simpa [PyValue.truthy] using h
      subst hn
      rw [if_neg (by decide)]
    | pyStr s =>
      have hs : s = "" := by simpa [PyValue.truthy] using h
      subst hs
      rw [if_neg (by decide)]
    | pyList xs =>
      cases xs with
      | nil => rw [if_neg (by decide)]
      | cons a b => simp [PyValue.truthy, PyValueList.isEmpty] at h

/-- Witness for the falsy branch of the amended C3 at a concrete input. -/
theorem C3_amended_parse_decides_witness :
    nx_x_decider "SET" "NX" (some [("no_overwrite", PyValue.pyBool false)]) = "SET" :=
  C3_amended_parse_decides.2.1 "SET" "NX" (PyValue.pyBool false) rfl

/-- C4 counterexample: a nested Python list is not rejected with a TypeError;
    the flattening helper succeeds and passes the str() rendering of the list
    as a single argument. -/
theorem C4_counterexample :
    construct_vector 1 [PyValue.pyList (.cons (.pyStr "a") (.cons (.pyStr "b") .nil))] =
      Except.ok ["[\x27a\x27, \x27b\x27]"] := rfl

/-- C4 amended: the flattening helper never fails; every argument, nested
    sequences included, is stringified via str() and collected, and the
    manual facade dispatches exactly those stringified arguments. -/
theorem C4_amended_no_rejection (capacity : Nat) (other : List PyValue)
    (server : Server String) (cmd : String) (args : List PyValue) :
    construct_vector capacity other = Except.ok (other.map PyValue.str) ∧
    RedisClient.manual server cmd args = route_command server cmd (args.map PyValue.str) :=
  ⟨rfl, rfl⟩

/-- C2 counterexample: delete and exists raise on a server error rather than
    substituting a default, contradicting their membership in the lenient
    set. -/
theorem C2_counterexample :
    RedisClient.delete (failServer ⟨ErrorKind.responseError, some "boom"⟩)
      [PyValue.pyStr "k"] = Except.error (PyErr.exception "boom") ∧
    RedisClient.exists_ (failServer ⟨ErrorKind.responseError, some "boom"⟩)
      [PyValue.pyStr "k"] = Except.error (PyErr.exception "boom") :=
  ⟨rfl, rfl⟩

/-- C2 amended: only get, randomkey and rename suppress dispatch errors and
    return the default value; delete, exists and expire propagate the
    classified error to the caller. -/
theorem C2_amended_lenient_set (sS : Server String)
    (key newkey : String) (no_overwrite : Option PyDict) (keys : List PyValue)
    (e : RedisError) (seconds : Nat) :
    exceptIsOk (RedisClient.get sS key) = true ∧
    exceptIsOk (RedisClient.randomkey sS) = true ∧
    exceptIsOk (RedisClient.rename sS key newkey no_overwrite) = true ∧
    RedisClient.delete (failServer e) keys = Except.error (classify_error e) ∧
    RedisClient.exists_ (failServer e) keys = Except.error (classify_error e) ∧
    RedisClient.expire (failServer e) key seconds = Except.error (classify_error e) :=
  ⟨rfl, rfl, rfl, rfl, rfl, rfl⟩

/-- C7 counterexample: with every URL unparseable to the external opener,
    construction panics through expect instead of returning an error value. -/
theorem C7_counterexample :
    RedisClient.new (fun _ => none) (some 0) "not a url" =
      ConstructOutcome.panicked "could not establish a Redis client" := rfl

/-- C7 amended: whenever the external Client open fails on the normalized
    URL, construction panics with the expect message; no error value is
    returned to the caller. -/
theorem C7_amended_panics (open_ : String → Option Unit) (conn : Option Int)
    (url : String) (h : open_ (normalize_url url) = none) :
    RedisClient.new open_ conn url =
      ConstructOutcome.panicked "could not establish a Redis client" := by
  simp only [RedisClient.new]
  rw [h]

/-- Witness for the amended C7 at a concrete failing opener. -/
theorem C7_amended_panics_witness :
    RedisClient.new (fun _ => none) (some 0) "u" =
      ConstructOutcome.panicked "could not establish a Redis client" :=
  C7_amended_panics (fun _ => none) (some 0) "u" rfl

end Suredis
